import Mathlib

/-!
Verification of the PyroAlert dashboard risk core (converters, risk
evaluator, device aggregator) against its natural-language specification.

The JavaScript source is shallowly embedded over ℚ: sensor readings are
rational numbers, `Math.round` is modelled by `jsRound` (round half toward
+∞, as ECMAScript specifies), and `toFixed(1)` by `jsToFixed1` (nearest
multiple of 1/10, ties toward +∞, as ECMAScript specifies). The
`parseFloat(x) || 0` idiom on the smoke field is modelled by carrying the
smoke input as `Option ℚ`: `some q` when the input parses to the finite
number `q`, `none` when it does not (NaN case), with `parseFloatOr0`
collapsing `none` to `0` exactly as `|| 0` does.
-/

/-- ECMAScript `Math.round`: round half toward +∞. -/
def jsRound (q : ℚ) : ℤ := Int.floor (q + 1/2)

/-- ECMAScript `toFixed(1)` (numeric content): nearest multiple of 1/10,
ties toward +∞. -/
def jsToFixed1 (q : ℚ) : ℚ := (jsRound (q * 10) : ℚ) / 10

/-- `parseFloat(x) || 0`: a smoke input that does not parse to a number
(`none`, the NaN case) is coerced to `0`; a parsed finite number is kept
(`parseFloat(x) = 0` is falsy, but `0 || 0` is `0` as well). -/
def parseFloatOr0 : Option ℚ → ℚ
  | none => 0
  | some q => q

/-- `convertSmokeToPercent`: `percent = value / 4.8 * 100`, then
`Math.min(100, Math.max(0, percent)).toFixed(1)`. -/
def convertSmokeToPercent (value : ℚ) : ℚ :=
  jsToFixed1 (min 100 (max 0 (value / 4.8 * 100)))

/-- `convertSoilHumidityToPercent`: `percent = -65.79 * value + 169.08`,
then `percent.toFixed(1)` — no clamping. -/
def convertSoilHumidityToPercent (value : ℚ) : ℚ :=
  jsToFixed1 (-65.79 * value + 169.08)

/-- The sensor reading of a device as consumed by `calculateRiskFromSensors`.
The four plain numeric fields are rationals; `smokePercent` is the
`parseFloat` view of whatever the field holds (`none` = not a number). -/
structure Device where
  temperature : ℚ
  airHumidity : ℚ
  soilHumidity : ℚ
  heatIndex : ℚ
  smokePercent : Option ℚ
  deriving DecidableEq

/-- Temperature ladder: `<28→0; <=33→1; <=38→2; else 3`. -/
def temperatureScore (t : ℚ) : ℕ :=
  if t < 28 then 0 else if t ≤ 33 then 1 else if t ≤ 38 then 2 else 3

/-- Air-humidity ladder (inverted): `>45→0; >=30→1; >=20→2; else 3`. -/
def airHumidityScore (h : ℚ) : ℕ :=
  if h > 45 then 0 else if h ≥ 30 then 1 else if h ≥ 20 then 2 else 3

/-- Soil-humidity ladder (inverted): `>30→0; >=20→1; >=10→2; else 3`. -/
def soilHumidityScore (h : ℚ) : ℕ :=
  if h > 30 then 0 else if h ≥ 20 then 1 else if h ≥ 10 then 2 else 3

/-- Smoke ladder: `<=3→0; <=6→1; <=10→2; else 3`. -/
def smokeScore (s : ℚ) : ℕ :=
  if s ≤ 3 then 0 else if s ≤ 6 then 1 else if s ≤ 10 then 2 else 3

/-- Heat-index ladder: `<30→0; <=36→1; <=40→2; else 3`. -/
def heatIndexScore (h : ℚ) : ℕ :=
  if h < 30 then 0 else if h ≤ 36 then 1 else if h ≤ 40 then 2 else 3

/-- The running `riskPoints` total of `calculateRiskFromSensors`: the five
sub-scores accumulated in source order. -/
def riskPointsOf (d : Device) : ℕ :=
  temperatureScore d.temperature + airHumidityScore d.airHumidity +
    soilHumidityScore d.soilHumidity + smokeScore (parseFloatOr0 d.smokePercent) +
    heatIndexScore d.heatIndex

/-- `const riskPercent = Math.round((riskPoints / 15) * 100);` -/
def riskPercentOf (points : ℕ) : ℤ := jsRound ((points : ℚ) / 15 * 100)

/-- The level cascade on `riskPercent`:
`<=25→"low"; <=50→"moderate"; <=75→"high"; else "critical"`. -/
def riskLevelOf (percent : ℤ) : String :=
  if percent ≤ 25 then "low"
  else if percent ≤ 50 then "moderate"
  else if percent ≤ 75 then "high"
  else "critical"

/-- The value returned by `calculateRiskFromSensors`:
`return { riskLevel, riskPercent };`. -/
structure RiskResult where
  riskLevel : String
  riskPercent : ℤ
  deriving DecidableEq

/-- `calculateRiskFromSensors(device)`. -/
def calculateRiskFromSensors (d : Device) : RiskResult :=
  let riskPoints := riskPointsOf d
  let riskPercent := riskPercentOf riskPoints
  { riskLevel := riskLevelOf riskPercent, riskPercent := riskPercent }

/-- The sixteen percent values reachable from point totals 0..15. -/
def achievablePercents : List ℤ :=
  [0, 7, 13, 20, 27, 33, 40, 47, 53, 60, 67, 73, 80, 87, 93, 100]

/-- A structurally valid risk assessment: one of the four level tags and a
percent within [0, 100]. -/
def wellFormedRisk (r : RiskResult) : Prop :=
  (r.riskLevel = "low" ∨ r.riskLevel = "moderate" ∨
    r.riskLevel = "high" ∨ r.riskLevel = "critical") ∧
  0 ≤ r.riskPercent ∧ r.riskPercent ≤ 100

/-- A field value of the JavaScript object returned by
`calculateRiskFromSensors`: a string tag or an integer percent. -/
inductive RiskField where
  | str (s : String)
  | int (n : ℤ)
  deriving DecidableEq

/-- The literal object `return { riskLevel, riskPercent };` of
`calculateRiskFromSensors`, as field-name/value pairs. -/
def calculateRiskObj (d : Device) : List (String × RiskField) :=
  [("riskLevel", RiskField.str (calculateRiskFromSensors d).riskLevel),
    ("riskPercent", RiskField.int (calculateRiskFromSensors d).riskPercent)]

/-- The accumulator of the `devices.reduce` in the dashboard averages
block: running sums of the five raw fields. -/
structure FieldSums where
  temperature : ℚ
  airHumidity : ℚ
  soilHumidity : ℚ
  heatIndex : ℚ
  smokePercent : ℚ
  deriving DecidableEq

/-- One step of the `reduce`: add the five fields of one device, with the
smoke field passed through `parseFloat(...) || 0`. -/
def sumStep (acc : FieldSums) (d : Device) : FieldSums :=
  { temperature := acc.temperature + d.temperature
    airHumidity := acc.airHumidity + d.airHumidity
    soilHumidity := acc.soilHumidity + d.soilHumidity
    heatIndex := acc.heatIndex + d.heatIndex
    smokePercent := acc.smokePercent + parseFloatOr0 d.smokePercent }

/-- The display averages: temperature and heatIndex via `toFixed(1)`, the
two humidity fields via `Math.round`, smokePercent via `toFixed(1)`. -/
structure Averages where
  temperature : ℚ
  airHumidity : ℤ
  soilHumidity : ℤ
  heatIndex : ℚ
  smokePercent : ℚ
  deriving DecidableEq

/-- The dashboard `averages` memo: reduce to field sums from a zero
accumulator, divide by the device count, and round for display. -/
def averagesOf (devices : List Device) : Averages :=
  let sum := devices.foldl sumStep ⟨0, 0, 0, 0, 0⟩
  let count : ℚ := devices.length
  { temperature := jsToFixed1 (sum.temperature / count)
    airHumidity := jsRound (sum.airHumidity / count)
    soilHumidity := jsRound (sum.soilHumidity / count)
    heatIndex := jsToFixed1 (sum.heatIndex / count)
    smokePercent := jsToFixed1 (sum.smokePercent / count) }

/-- Ordinal rank of the four level tags. -/
def levelRank (s : String) : ℕ :=
  if s = "low" then 0 else if s = "moderate" then 1
  else if s = "high" then 2 else 3

/-- Bucket characterization of the temperature ladder. -/
lemma temperatureScore_buckets (q : ℚ) :
    (temperatureScore q = 0 ↔ q < 28) ∧
    (temperatureScore q = 1 ↔ 28 ≤ q ∧ q ≤ 33) ∧
    (temperatureScore q = 2 ↔ 33 < q ∧ q ≤ 38) ∧
    (temperatureScore q = 3 ↔ 38 < q) := by
  unfold temperatureScore
  split_ifs with h1 h2 h3 <;>
    refine ⟨?_, ?_, ?_, ?_⟩ <;> simp <;> push_neg at * <;>
    first
      | linarith
      | (constructor <;> linarith)
      | (intro h; linarith)

/-- Bucket characterization of the air-humidity ladder. -/
lemma airHumidityScore_buckets (q : ℚ) :
    (airHumidityScore q = 0 ↔ 45 < q) ∧
    (airHumidityScore q = 1 ↔ 30 ≤ q ∧ q ≤ 45) ∧
    (airHumidityScore q = 2 ↔ 20 ≤ q ∧ q < 30) ∧
    (airHumidityScore q = 3 ↔ q < 20) := by
  unfold airHumidityScore
  split_ifs with h1 h2 h3 <;>
    refine ⟨?_, ?_, ?_, ?_⟩ <;> simp <;> push_neg at * <;>
    first
      | linarith
      | (constructor <;> linarith)
      | (intro h; linarith)

/-- Bucket characterization of the soil-humidity ladder. -/
lemma soilHumidityScore_buckets (q : ℚ) :
    (soilHumidityScore q = 0 ↔ 30 < q) ∧
    (soilHumidityScore q = 1 ↔ 20 ≤ q ∧ q ≤ 30) ∧
    (soilHumidityScore q = 2 ↔ 10 ≤ q ∧ q < 20) ∧
    (soilHumidityScore q = 3 ↔ q < 10) := by
  unfold soilHumidityScore
  split_ifs with h1 h2 h3 <;>
    refine ⟨?_, ?_, ?_, ?_⟩ <;> simp <;> push_neg at * <;>
    first
      | linarith
      | (constructor <;> linarith)
      | (intro h; linarith)

/-- Bucket characterization of the smoke ladder. -/
lemma smokeScore_buckets (q : ℚ) :
    (smokeScore q = 0 ↔ q ≤ 3) ∧
    (smokeScore q = 1 ↔ 3 < q ∧ q ≤ 6) ∧
    (smokeScore q = 2 ↔ 6 < q ∧ q ≤ 10) ∧
    (smokeScore q = 3 ↔ 10 < q) := by
  unfold smokeScore
  split_ifs with h1 h2 h3 <;>
    refine ⟨?_, ?_, ?_, ?_⟩ <;> simp <;> push_neg at * <;>
    first
      | linarith
      | (constructor <;> linarith)
      | (intro h; linarith)

/-- Bucket characterization of the heat-index ladder. -/
lemma heatIndexScore_buckets (q : ℚ) :
    (heatIndexScore q = 0 ↔ q < 30) ∧
    (heatIndexScore q = 1 ↔ 30 ≤ q ∧ q ≤ 36) ∧
    (heatIndexScore q = 2 ↔ 36 < q ∧ q ≤ 40) ∧
    (heatIndexScore q = 3 ↔ 40 < q) := by
  unfold heatIndexScore
  split_ifs with h1 h2 h3 <;>
    refine ⟨?_, ?_, ?_, ?_⟩ <;> simp <;> push_neg at * <;>
    first
      | linarith
      | (constructor <;> linarith)
      | (intro h; linarith)

/-- C1: each of the five criteria is scored exactly per the documented
threshold ladder with the documented boundary semantics (stated as the
bucket characterization of each cascade), and in particular
temperature 28 scores 1, temperature 33 scores 1, temperature 33.01
scores 2. -/
theorem c1_sub_score_ladders :
    (∀ q : ℚ,
      ((temperatureScore q = 0 ↔ q < 28) ∧
        (temperatureScore q = 1 ↔ 28 ≤ q ∧ q ≤ 33) ∧
        (temperatureScore q = 2 ↔ 33 < q ∧ q ≤ 38) ∧
        (temperatureScore q = 3 ↔ 38 < q)) ∧
      ((airHumidityScore q = 0 ↔ 45 < q) ∧
        (airHumidityScore q = 1 ↔ 30 ≤ q ∧ q ≤ 45) ∧
        (airHumidityScore q = 2 ↔ 20 ≤ q ∧ q < 30) ∧
        (airHumidityScore q = 3 ↔ q < 20)) ∧
      ((soilHumidityScore q = 0 ↔ 30 < q) ∧
        (soilHumidityScore q = 1 ↔ 20 ≤ q ∧ q ≤ 30) ∧
        (soilHumidityScore q = 2 ↔ 10 ≤ q ∧ q < 20) ∧
        (soilHumidityScore q = 3 ↔ q < 10)) ∧
      ((smokeScore q = 0 ↔ q ≤ 3) ∧
        (smokeScore q = 1 ↔ 3 < q ∧ q ≤ 6) ∧
        (smokeScore q = 2 ↔ 6 < q ∧ q ≤ 10) ∧
        (smokeScore q = 3 ↔ 10 < q)) ∧
      ((heatIndexScore q = 0 ↔ q < 30) ∧
        (heatIndexScore q = 1 ↔ 30 ≤ q ∧ q ≤ 36) ∧
        (heatIndexScore q = 2 ↔ 36 < q ∧ q ≤ 40) ∧
        (heatIndexScore q = 3 ↔ 40 < q))) ∧
    temperatureScore 28 = 1 ∧ temperatureScore 33 = 1 ∧
    temperatureScore 33.01 = 2 :=
  ⟨fun q => ⟨temperatureScore_buckets q, airHumidityScore_buckets q,
      soilHumidityScore_buckets q, smokeScore_buckets q,
      heatIndexScore_buckets q⟩,
    by norm_num [temperatureScore], by norm_num [temperatureScore],
    by norm_num [temperatureScore]⟩

/-- C4: end-to-end evaluation of the two documented scenario readings:
sub-scores, riskPoints, riskPercent and riskLevel. -/
theorem c4_end_to_end_scenarios :
    (temperatureScore 38 = 2 ∧ airHumidityScore 10 = 3 ∧
      soilHumidityScore 5 = 3 ∧ heatIndexScore 42 = 3 ∧
      smokeScore (parseFloatOr0 (some 12.9)) = 3 ∧
      riskPointsOf ⟨38, 10, 5, 42, some 12.9⟩ = 14 ∧
      calculateRiskFromSensors ⟨38, 10, 5, 42, some 12.9⟩ =
        ⟨"critical", 93⟩) ∧
    (temperatureScore 24 = 0 ∧ airHumidityScore 65 = 0 ∧
      soilHumidityScore 40 = 0 ∧ heatIndexScore 25 = 0 ∧
      smokeScore (parseFloatOr0 (some 2.5)) = 0 ∧
      riskPointsOf ⟨24, 65, 40, 25, some 2.5⟩ = 0 ∧
      calculateRiskFromSensors ⟨24, 65, 40, 25, some 2.5⟩ = ⟨"low", 0⟩) := by
  norm_num [calculateRiskFromSensors, riskPointsOf, riskPercentOf,
    riskLevelOf, temperatureScore, airHumidityScore, soilHumidityScore,
    smokeScore, heatIndexScore, parseFloatOr0, jsRound,
    RiskResult.mk.injEq]

/-- Each sub-score is at most 3. -/
lemma scores_le_three (q : ℚ) :
    temperatureScore q ≤ 3 ∧ airHumidityScore q ≤ 3 ∧
    soilHumidityScore q ≤ 3 ∧ smokeScore q ≤ 3 ∧ heatIndexScore q ≤ 3 := by
  unfold temperatureScore airHumidityScore soilHumidityScore smokeScore
    heatIndexScore
  refine ⟨?_, ?_, ?_, ?_, ?_⟩ <;> split_ifs <;> omega

/-- The accumulated riskPoints never exceed 15. -/
lemma riskPointsOf_le (d : Device) : riskPointsOf d ≤ 15 := by
  unfold riskPointsOf
  have h1 := (scores_le_three d.temperature).1
  have h2 := (scores_le_three d.airHumidity).2.1
  have h3 := (scores_le_three d.soilHumidity).2.2.1
  have h4 := (scores_le_three (parseFloatOr0 d.smokePercent)).2.2.2.1
  have h5 := (scores_le_three d.heatIndex).2.2.2.2
  omega

/-- Every point total up to 15 rounds into the sixteen-element set. -/
lemma riskPercentOf_mem (p : ℕ) (hp : p ≤ 15) :
    riskPercentOf p ∈ achievablePercents := by
  interval_cases p <;> norm_num [riskPercentOf, jsRound, achievablePercents]

/-- The rounded percent of a point total up to 15 lies in [0, 100]. -/
lemma riskPercentOf_bounds (p : ℕ) (hp : p ≤ 15) :
    0 ≤ riskPercentOf p ∧ riskPercentOf p ≤ 100 := by
  interval_cases p <;> norm_num [riskPercentOf, jsRound]

/-- The level cascade only ever produces one of the four tags. -/
lemma riskLevelOf_mem (r : ℤ) :
    riskLevelOf r = "low" ∨ riskLevelOf r = "moderate" ∨
    riskLevelOf r = "high" ∨ riskLevelOf r = "critical" := by
  unfold riskLevelOf
  split_ifs <;> simp

/-- C2: riskPoints is at most 15, riskPercent is exactly the half-up
rounding of riskPoints/15*100, and riskPercent always lies in the
sixteen-element achievable set. -/
theorem c2_risk_percent_formula :
    ∀ d : Device,
      riskPointsOf d ≤ 15 ∧
      (calculateRiskFromSensors d).riskPercent =
        jsRound ((riskPointsOf d : ℚ) / 15 * 100) ∧
      (calculateRiskFromSensors d).riskPercent ∈ achievablePercents :=
  fun d => ⟨riskPointsOf_le d, rfl, riskPercentOf_mem _ (riskPointsOf_le d)⟩

/-- C3: on integer percents 0..100 the level mapping is exhaustive and
non-overlapping, with the documented interval for each tag. -/
theorem c3_level_mapping (r : ℤ) (h0 : 0 ≤ r) (h100 : r ≤ 100) :
    (riskLevelOf r = "low" ∨ riskLevelOf r = "moderate" ∨
      riskLevelOf r = "high" ∨ riskLevelOf r = "critical") ∧
    (riskLevelOf r = "low" ↔ r ≤ 25) ∧
    (riskLevelOf r = "moderate" ↔ 26 ≤ r ∧ r ≤ 50) ∧
    (riskLevelOf r = "high" ↔ 51 ≤ r ∧ r ≤ 75) ∧
    (riskLevelOf r = "critical" ↔ 75 < r) := by
  unfold riskLevelOf
  split_ifs <;> simp_all <;> omega

/-- Witness for C3 at the concrete percent 40. -/
theorem c3_level_mapping_witness : riskLevelOf 40 = "moderate" :=
  ((c3_level_mapping 40 (by norm_num) (by norm_num)).2.2.1).mpr (by norm_num)

/-- C5: the evaluator is total — a smoke input that does not parse to a
number is scored exactly as smoke 0, and every reading yields a
well-formed assessment. -/
theorem c5_totality_smoke_coercion :
    ∀ d : Device,
      calculateRiskFromSensors { d with smokePercent := none } =
        calculateRiskFromSensors { d with smokePercent := some 0 } ∧
      wellFormedRisk (calculateRiskFromSensors d) :=
  fun d =>
    ⟨rfl,
      riskLevelOf_mem _,
      (riskPercentOf_bounds _ (riskPointsOf_le d)).1,
      (riskPercentOf_bounds _ (riskPointsOf_le d)).2⟩

/-- The returned object never carries a riskPoints field. -/
lemma calculateRiskObj_no_points (d : Device) :
    (calculateRiskObj d).lookup "riskPoints" = none := by
  simp [calculateRiskObj, List.lookup]

/-- C8 counterexample: at the concrete low-risk reading the returned
object holds only riskLevel and riskPercent — looking up riskPoints in
it yields nothing, so riskPoints is not part of the output. -/
theorem c8_counterexample_no_riskPoints_field :
    (calculateRiskObj ⟨24, 65, 40, 25, some 2.5⟩).lookup "riskPoints" =
      none ∧
    (calculateRiskObj ⟨24, 65, 40, 25, some 2.5⟩).lookup "riskLevel" =
      some (RiskField.str "low") ∧
    (calculateRiskObj ⟨24, 65, 40, 25, some 2.5⟩).lookup "riskPercent" =
      some (RiskField.int 0) := by
  have h : calculateRiskFromSensors ⟨24, 65, 40, 25, some 2.5⟩ =
      ⟨"low", 0⟩ := by
    norm_num [calculateRiskFromSensors, riskPointsOf, riskPercentOf,
      riskLevelOf, temperatureScore, airHumidityScore, soilHumidityScore,
      smokeScore, heatIndexScore, parseFloatOr0, jsRound,
      RiskResult.mk.injEq]
  simp [calculateRiskObj, List.lookup, h]

/-- C8 amended: riskPoints is computed internally — it is the sum of the
five sub-scores, each at most 3, totalling at most 15 — and the returned
object consists of exactly the riskLevel and riskPercent fields derived
from it, with no riskPoints field. -/
theorem c8_internal_riskPoints_two_field_output :
    ∀ d : Device,
      riskPointsOf d =
        temperatureScore d.temperature + airHumidityScore d.airHumidity +
          soilHumidityScore d.soilHumidity +
          smokeScore (parseFloatOr0 d.smokePercent) +
          heatIndexScore d.heatIndex ∧
      riskPointsOf d ≤ 15 ∧
      calculateRiskObj d =
        [("riskLevel",
            RiskField.str (riskLevelOf (riskPercentOf (riskPointsOf d)))),
          ("riskPercent", RiskField.int (riskPercentOf (riskPointsOf d)))] ∧
      (calculateRiskObj d).lookup "riskPoints" = none :=
  fun d => ⟨rfl, riskPointsOf_le d, rfl, calculateRiskObj_no_points d⟩

/-- The reduce computes, per field, the plain sum over the device list. -/
lemma foldl_sumStep (ds : List Device) (acc : FieldSums) :
    ds.foldl sumStep acc =
      ⟨acc.temperature + (ds.map Device.temperature).sum,
        acc.airHumidity + (ds.map Device.airHumidity).sum,
        acc.soilHumidity + (ds.map Device.soilHumidity).sum,
        acc.heatIndex + (ds.map Device.heatIndex).sum,
        acc.smokePercent +
          (ds.map (fun d => parseFloatOr0 d.smokePercent)).sum⟩ := by
  induction ds generalizing acc with
  | nil => cases acc; simp
  | cons d ds ih =>
      cases acc
      simp [List.foldl_cons, sumStep, ih, FieldSums.mk.injEq]
      refine ⟨by ring, by ring, by ring, by ring, by ring⟩

/-- C9: on a non-empty device list the averages block computes the
unweighted arithmetic mean of each of the five raw fields, rounded for
display: temperature and heatIndex to one decimal, the two humidity
fields to the nearest integer, smokePercent to one decimal. -/
theorem c9_averages_are_rounded_means (devices : List Device)
    (h : devices ≠ []) :
    0 < devices.length ∧
    averagesOf devices =
      { temperature :=
          jsToFixed1
            ((devices.map Device.temperature).sum / devices.length)
        airHumidity :=
          jsRound ((devices.map Device.airHumidity).sum / devices.length)
        soilHumidity :=
          jsRound ((devices.map Device.soilHumidity).sum / devices.length)
        heatIndex :=
          jsToFixed1 ((devices.map Device.heatIndex).sum / devices.length)
        smokePercent :=
          jsToFixed1
            ((devices.map (fun d => parseFloatOr0 d.smokePercent)).sum /
              devices.length) } := by
  refine ⟨List.length_pos.mpr h, ?_⟩
  unfold averagesOf
  rw [foldl_sumStep]
  simp

/-- Witness for C9 at a concrete one-device list. -/
theorem c9_averages_witness :
    averagesOf [⟨30, 50, 40, 32, some 4⟩] = ⟨30, 50, 40, 32, 4⟩ := by
  have h := (c9_averages_are_rounded_means [⟨30, 50, 40, 32, some 4⟩]
    (by simp)).2
  rw [h]
  norm_num [jsToFixed1, jsRound, parseFloatOr0, Averages.mk.injEq]

/-- The temperature ladder is non-decreasing. -/
lemma temperatureScore_mono {a b : ℚ} (h : a ≤ b) :
    temperatureScore a ≤ temperatureScore b := by
  unfold temperatureScore
  split_ifs <;> first | omega | (exfalso; linarith)

/-- The air-humidity ladder is non-increasing. -/
lemma airHumidityScore_anti {a b : ℚ} (h : a ≤ b) :
    airHumidityScore b ≤ airHumidityScore a := by
  unfold airHumidityScore
  split_ifs <;> first | omega | (exfalso; linarith)

/-- The soil-humidity ladder is non-increasing. -/
lemma soilHumidityScore_anti {a b : ℚ} (h : a ≤ b) :
    soilHumidityScore b ≤ soilHumidityScore a := by
  unfold soilHumidityScore
  split_ifs <;> first | omega | (exfalso; linarith)

/-- The smoke ladder is non-decreasing. -/
lemma smokeScore_mono {a b : ℚ} (h : a ≤ b) :
    smokeScore a ≤ smokeScore b := by
  unfold smokeScore
  split_ifs <;> first | omega | (exfalso; linarith)

/-- The heat-index ladder is non-decreasing. -/
lemma heatIndexScore_mono {a b : ℚ} (h : a ≤ b) :
    heatIndexScore a ≤ heatIndexScore b := by
  unfold heatIndexScore
  split_ifs <;> first | omega | (exfalso; linarith)

/-- Half-up rounding is monotone. -/
lemma jsRound_mono {a b : ℚ} (h : a ≤ b) : jsRound a ≤ jsRound b :=
  Int.floor_le_floor (by linarith)

/-- The rounded percent is monotone in the point total. -/
lemma riskPercentOf_mono {p q : ℕ} (h : p ≤ q) :
    riskPercentOf p ≤ riskPercentOf q := by
  apply jsRound_mono
  have hq : (p : ℚ) ≤ q := by exact_mod_cast h
  linarith

/-- The level cascade is monotone in the percent, ordinally. -/
lemma riskLevelOf_rank_mono {x y : ℤ} (h : x ≤ y) :
    levelRank (riskLevelOf x) ≤ levelRank (riskLevelOf y) := by
  unfold riskLevelOf
  split_ifs <;> simp [levelRank] <;> omega

/-- Points, percent and ordinal level move together. -/
lemma risk_chain_mono {p q : ℕ} (h : p ≤ q) :
    riskPercentOf p ≤ riskPercentOf q ∧
    levelRank (riskLevelOf (riskPercentOf p)) ≤
      levelRank (riskLevelOf (riskPercentOf q)) :=
  ⟨riskPercentOf_mono h, riskLevelOf_rank_mono (riskPercentOf_mono h)⟩

/-- C10: with the other four fields fixed, riskPoints, riskPercent and
the ordinal riskLevel are non-decreasing in temperature, heatIndex and
smokePercent and non-increasing in airHumidity and soilHumidity. -/
theorem c10_field_monotonicity :
    ∀ (d : Device) (a b : ℚ), a ≤ b →
      (riskPointsOf { d with temperature := a } ≤
          riskPointsOf { d with temperature := b } ∧
        (calculateRiskFromSensors { d with temperature := a }).riskPercent ≤
          (calculateRiskFromSensors { d with temperature := b }).riskPercent ∧
        levelRank
            (calculateRiskFromSensors { d with temperature := a }).riskLevel ≤
          levelRank
            (calculateRiskFromSensors { d with temperature := b }).riskLevel) ∧
      (riskPointsOf { d with heatIndex := a } ≤
          riskPointsOf { d with heatIndex := b } ∧
        (calculateRiskFromSensors { d with heatIndex := a }).riskPercent ≤
          (calculateRiskFromSensors { d with heatIndex := b }).riskPercent ∧
        levelRank
            (calculateRiskFromSensors { d with heatIndex := a }).riskLevel ≤
          levelRank
            (calculateRiskFromSensors { d with heatIndex := b }).riskLevel) ∧
      (riskPointsOf { d with smokePercent := some a } ≤
          riskPointsOf { d with smokePercent := some b } ∧
        (calculateRiskFromSensors
            { d with smokePercent := some a }).riskPercent ≤
          (calculateRiskFromSensors
            { d with smokePercent := some b }).riskPercent ∧
        levelRank
            (calculateRiskFromSensors
              { d with smokePercent := some a }).riskLevel ≤
          levelRank
            (calculateRiskFromSensors
              { d with smokePercent := some b }).riskLevel) ∧
      (riskPointsOf { d with airHumidity := b } ≤
          riskPointsOf { d with airHumidity := a } ∧
        (calculateRiskFromSensors { d with airHumidity := b }).riskPercent ≤
          (calculateRiskFromSensors { d with airHumidity := a }).riskPercent ∧
        levelRank
            (calculateRiskFromSensors { d with airHumidity := b }).riskLevel ≤
          levelRank
            (calculateRiskFromSensors { d with airHumidity := a }).riskLevel) ∧
      (riskPointsOf { d with soilHumidity := b } ≤
          riskPointsOf { d with soilHumidity := a } ∧
        (calculateRiskFromSensors { d with soilHumidity := b }).riskPercent ≤
          (calculateRiskFromSensors { d with soilHumidity := a }).riskPercent ∧
        levelRank
            (calculateRiskFromSensors { d with soilHumidity := b }).riskLevel ≤
          levelRank
            (calculateRiskFromSensors { d with soilHumidity := a }).riskLevel) := by
  intro d a b hab
  have ht : riskPointsOf { d with temperature := a } ≤
      riskPointsOf { d with temperature := b } := by
    unfold riskPointsOf
    have := temperatureScore_mono hab
    dsimp only
    omega
  have hh : riskPointsOf { d with heatIndex := a } ≤
      riskPointsOf { d with heatIndex := b } := by
    unfold riskPointsOf
    have := heatIndexScore_mono hab
    dsimp only
    omega
  have hs : riskPointsOf { d with smokePercent := some a } ≤
      riskPointsOf { d with smokePercent := some b } := by
    unfold riskPointsOf
    have := smokeScore_mono hab
    dsimp only [parseFloatOr0]
    omega
  have hair : riskPointsOf { d with airHumidity := b } ≤
      riskPointsOf { d with airHumidity := a } := by
    unfold riskPointsOf
    have := airHumidityScore_anti hab
    dsimp only
    omega
  have hsoil : riskPointsOf { d with soilHumidity := b } ≤
      riskPointsOf { d with soilHumidity := a } := by
    unfold riskPointsOf
    have := soilHumidityScore_anti hab
    dsimp only
    omega
  exact ⟨⟨ht, (risk_chain_mono ht).1, (risk_chain_mono ht).2⟩,
    ⟨hh, (risk_chain_mono hh).1, (risk_chain_mono hh).2⟩,
    ⟨hs, (risk_chain_mono hs).1, (risk_chain_mono hs).2⟩,
    ⟨hair, (risk_chain_mono hair).1, (risk_chain_mono hair).2⟩,
    ⟨hsoil, (risk_chain_mono hsoil).1, (risk_chain_mono hsoil).2⟩⟩

/-- Witness for C10: raising temperature from 30 to 39 with the other
fields fixed does not lower the point total. -/
theorem c10_field_monotonicity_witness :
    riskPointsOf ⟨30, 65, 40, 25, some 0⟩ ≤
      riskPointsOf ⟨39, 65, 40, 25, some 0⟩ :=
  ((c10_field_monotonicity ⟨30, 65, 40, 25, some 0⟩ 30 39
    (by norm_num)).1).1

/-- C6: `convertSmokeToPercent` is the clamp of `raw / 4.8 * 100` to
`[0, 100]` rounded to one decimal place, with the four documented
concrete values. -/
theorem c6_smoke_conversion :
    (∀ v : ℚ,
      convertSmokeToPercent v = jsToFixed1 (max 0 (min 100 (v / 4.8 * 100)))) ∧
    convertSmokeToPercent 0 = 0 ∧ convertSmokeToPercent 4.8 = 100 ∧
    convertSmokeToPercent 10 = 100 ∧ convertSmokeToPercent (-5) = 0 := by
  refine ⟨fun v => ?_, ?_, ?_, ?_, ?_⟩
  · unfold convertSmokeToPercent
    rcases le_total (v / 4.8 * 100) 0 with h | h <;>
      rcases le_total (v / 4.8 * 100) 100 with h2 | h2 <;>
      simp [min_def, max_def] <;> split_ifs <;> first | rfl | linarith
  all_goals norm_num [convertSmokeToPercent, jsToFixed1, jsRound]

/-- C7: `convertSoilHumidityToPercent` is the affine transform
`-65.79 * raw + 169.08` rounded to one decimal place with no clamping;
input 1 yields 103.3 (above 100) and input 3 yields -28.3 (below 0). -/
theorem c7_soil_conversion :
    (∀ v : ℚ,
      convertSoilHumidityToPercent v = jsToFixed1 (-65.79 * v + 169.08)) ∧
    convertSoilHumidityToPercent 1 = 103.3 ∧
    (100 : ℚ) < convertSoilHumidityToPercent 1 ∧
    convertSoilHumidityToPercent 3 = -28.3 ∧
    convertSoilHumidityToPercent 3 < 0 := by
  refine ⟨fun v => rfl, ?_, ?_, ?_, ?_⟩ <;>
    norm_num [convertSoilHumidityToPercent, jsToFixed1, jsRound]
